import Mathlib

/-!
Shallow embedding of the prediction logic of the crypto-price-predictor
front end (`script.js`, and the duplicate page script).  Machine numbers are
modelled as exact rationals; DOM input parsing is modelled by passing the
already-parsed values (`Int` for the two horizon inputs, which go through
`parseInt(...) || 0`, and `Option ℚ` for the current-price input, which is
`null` when the field is empty and a parsed float otherwise).  Calls to
`Math.random()` are modelled by an explicit structure of draws, each assumed
to lie in `[0, 1)` exactly as `Math.random()` guarantees.
-/

namespace CryptoPredictor

instance {ε α : Type} [DecidableEq ε] [DecidableEq α] : DecidableEq (Except ε α) := fun a b =>
  match a, b with
  | Except.error e1, Except.error e2 => decidable_of_iff (e1 = e2) (by simp)
  | Except.ok a1, Except.ok a2 => decidable_of_iff (a1 = a2) (by simp)
  | Except.error _, Except.ok _ => isFalse (by simp)
  | Except.ok _, Except.error _ => isFalse (by simp)

/-- Offline model metrics stored per symbol and interval class in
`cryptoData` (`mae`, `rmse`, `r2`, `accuracy`). -/
structure ModelMetrics where
  mae : ℚ
  rmse : ℚ
  r2 : ℚ
  accuracy : ℚ
deriving DecidableEq

/-- One entry of the static `cryptoData` object in `script.js`. -/
structure CryptoInfo where
  name : String
  symbol : String
  currentPrice : ℚ
  change24h : ℚ
  hourlyModel : ModelMetrics
  dailyModel : ModelMetrics
  color : String
  gradient : String
deriving DecidableEq

/-- `cryptoData.BTC` (script.js lines 240-249). -/
def btcInfo : CryptoInfo :=
  { name := "Bitcoin", symbol := "BTC", currentPrice := 43250.75, change24h := 2.34
    hourlyModel := { mae := 125.5, rmse := 189.25, r2 := 0.892, accuracy := 89.2 }
    dailyModel := { mae := 1250.75, rmse := 1890.5, r2 := 0.756, accuracy := 75.6 }
    color := "#f7931a", gradient := "linear-gradient(135deg, #f7931a 0%, #ff6b35 100%)" }

/-- `cryptoData.ETH` (script.js lines 250-259). -/
def ethInfo : CryptoInfo :=
  { name := "Ethereum", symbol := "ETH", currentPrice := 2650.25, change24h := -1.45
    hourlyModel := { mae := 45.25, rmse := 67.8, r2 := 0.885, accuracy := 88.5 }
    dailyModel := { mae := 125.5, rmse := 189.75, r2 := 0.742, accuracy := 74.2 }
    color := "#627eea", gradient := "linear-gradient(135deg, #627eea 0%, #00d4ff 100%)" }

/-- `cryptoData.ADA` (script.js lines 260-269). -/
def adaInfo : CryptoInfo :=
  { name := "Cardano", symbol := "ADA", currentPrice := 0.485, change24h := 3.67
    hourlyModel := { mae := 0.012, rmse := 0.018, r2 := 0.876, accuracy := 87.6 }
    dailyModel := { mae := 0.035, rmse := 0.052, r2 := 0.721, accuracy := 72.1 }
    color := "#0033ad", gradient := "linear-gradient(135deg, #0033ad 0%, #7c3aed 100%)" }

/-- `cryptoData.BNB` (script.js lines 270-279). -/
def bnbInfo : CryptoInfo :=
  { name := "Binance Coin", symbol := "BNB", currentPrice := 315.8, change24h := 1.89
    hourlyModel := { mae := 8.25, rmse := 12.5, r2 := 0.881, accuracy := 88.1 }
    dailyModel := { mae := 22.75, rmse := 34.25, r2 := 0.738, accuracy := 73.8 }
    color := "#f3ba2f", gradient := "linear-gradient(135deg, #f3ba2f 0%, #ff6b35 100%)" }

/-- `cryptoData.DOGE` (script.js lines 280-289). -/
def dogeInfo : CryptoInfo :=
  { name := "Dogecoin", symbol := "DOGE", currentPrice := 0.0825, change24h := 5.23
    hourlyModel := { mae := 0.0025, rmse := 0.0038, r2 := 0.863, accuracy := 86.3 }
    dailyModel := { mae := 0.0075, rmse := 0.0112, r2 := 0.695, accuracy := 69.5 }
    color := "#c2a633", gradient := "linear-gradient(135deg, #c2a633 0%, #f59e0b 100%)" }

/-- `cryptoData.SOL` (script.js lines 290-299). -/
def solInfo : CryptoInfo :=
  { name := "Solana", symbol := "SOL", currentPrice := 98.45, change24h := -2.15
    hourlyModel := { mae := 2.85, rmse := 4.25, r2 := 0.889, accuracy := 88.9 }
    dailyModel := { mae := 8.5, rmse := 12.75, r2 := 0.751, accuracy := 75.1 }
    color := "#9945ff", gradient := "linear-gradient(135deg, #9945ff 0%, #7c3aed 100%)" }

/-- `cryptoData.MATIC` (script.js lines 300-309). -/
def maticInfo : CryptoInfo :=
  { name := "Polygon", symbol := "MATIC", currentPrice := 0.875, change24h := 0.95
    hourlyModel := { mae := 0.025, rmse := 0.038, r2 := 0.872, accuracy := 87.2 }
    dailyModel := { mae := 0.065, rmse := 0.095, r2 := 0.718, accuracy := 71.8 }
    color := "#8247e5", gradient := "linear-gradient(135deg, #8247e5 0%, #00d4ff 100%)" }

/-- The static `cryptoData` lookup table (script.js lines 239-310): exactly
seven keys, `cryptoData[s]` is `undefined` (here `none`) for any other
symbol. -/
def cryptoData (s : String) : Option CryptoInfo :=
  match s with
  | "BTC" => some btcInfo
  | "ETH" => some ethInfo
  | "ADA" => some adaInfo
  | "BNB" => some bnbInfo
  | "DOGE" => some dogeInfo
  | "SOL" => some solInfo
  | "MATIC" => some maticInfo
  | _ => none

/-- The eight `Math.random()` results consumed by one run of
`simulateAdvancedPrediction` (four per interval class, in source order:
volatility, trend, the draw inside the predicted-price expression, and
confidence). -/
structure Draws where
  dVol : ℚ
  dTrend : ℚ
  dNoise : ℚ
  dConf : ℚ
  hVol : ℚ
  hTrend : ℚ
  hNoise : ℚ
  hConf : ℚ
deriving DecidableEq

/-- `Math.random()` returns a number in `[0, 1)`. -/
def unitDraw (r : ℚ) : Prop := 0 ≤ r ∧ r < 1

instance (r : ℚ) : Decidable (unitDraw r) :=
  inferInstanceAs (Decidable (0 ≤ r ∧ r < 1))

/-- All eight draws of a run lie in `[0, 1)`. -/
def Draws.valid (d : Draws) : Prop :=
  unitDraw d.dVol ∧ unitDraw d.dTrend ∧ unitDraw d.dNoise ∧ unitDraw d.dConf ∧
  unitDraw d.hVol ∧ unitDraw d.hTrend ∧ unitDraw d.hNoise ∧ unitDraw d.hConf

instance (d : Draws) : Decidable d.valid :=
  inferInstanceAs (Decidable (unitDraw d.dVol ∧ unitDraw d.dTrend ∧ unitDraw d.dNoise ∧
    unitDraw d.dConf ∧ unitDraw d.hVol ∧ unitDraw d.hTrend ∧ unitDraw d.hNoise ∧
    unitDraw d.hConf))

/-- The all-zero draw vector, a valid instance of `Draws`. -/
def drawsZero : Draws :=
  { dVol := 0, dTrend := 0, dNoise := 0, dConf := 0
    hVol := 0, hTrend := 0, hNoise := 0, hConf := 0 }

/-- Daily `const volatility = Math.random() * 0.1 + 0.05` (script.js line 586). -/
def dailyVolatility (d : Draws) : ℚ := d.dVol * 0.1 + 0.05

/-- Daily `const trend = (Math.random() - 0.5) * 0.2` (script.js line 587). -/
def dailyTrend (d : Draws) : ℚ := (d.dTrend - 0.5) * 0.2

/-- Daily `(Math.random() - 0.5) * volatility`, the noise summand of the
predicted-price expression (script.js line 588). -/
def dailyNoise (d : Draws) : ℚ := (d.dNoise - 0.5) * dailyVolatility d

/-- Daily `const predictedPrice = basePrice * (1 + trend + (Math.random() - 0.5) * volatility)`
(script.js line 588). -/
def dailyPredictedPrice (basePrice : ℚ) (d : Draws) : ℚ :=
  basePrice * (1 + dailyTrend d + dailyNoise d)

/-- Daily `confidence: Math.random() * 0.3 + 0.7` (script.js line 593). -/
def dailyConfidence (d : Draws) : ℚ := d.dConf * 0.3 + 0.7

/-- Hourly `const volatility = Math.random() * 0.05 + 0.01` (script.js line 599). -/
def hourlyVolatility (d : Draws) : ℚ := d.hVol * 0.05 + 0.01

/-- Hourly `const trend = (Math.random() - 0.5) * 0.1` (script.js line 600). -/
def hourlyTrend (d : Draws) : ℚ := (d.hTrend - 0.5) * 0.1

/-- Hourly `(Math.random() - 0.5) * volatility` (script.js line 601). -/
def hourlyNoise (d : Draws) : ℚ := (d.hNoise - 0.5) * hourlyVolatility d

/-- Hourly `const predictedPrice = basePrice * (1 + trend + (Math.random() - 0.5) * volatility)`
(script.js line 601). -/
def hourlyPredictedPrice (basePrice : ℚ) (d : Draws) : ℚ :=
  basePrice * (1 + hourlyTrend d + hourlyNoise d)

/-- Hourly `confidence: Math.random() * 0.2 + 0.8` (script.js line 606). -/
def hourlyConfidence (d : Draws) : ℚ := d.hConf * 0.2 + 0.8

/-- The object literal assigned to `predictions.daily_prediction`
(script.js lines 590-595): exactly these four fields. -/
structure DailyPrediction where
  predicted_price : ℚ
  days_ahead : ℤ
  confidence : ℚ
  model_accuracy : ℚ
deriving DecidableEq

/-- The object literal assigned to `predictions.hourly_prediction`
(script.js lines 603-608): exactly these four fields. -/
structure HourlyPrediction where
  predicted_price : ℚ
  hours_ahead : ℤ
  confidence : ℚ
  model_accuracy : ℚ
deriving DecidableEq

/-- The `predictions` object returned by `simulateAdvancedPrediction`
(script.js lines 583-617): the two optional sub-predictions and the two
unconditionally assigned fields `symbol` and `current_price`. -/
structure Predictions where
  daily_prediction : Option DailyPrediction
  hourly_prediction : Option HourlyPrediction
  symbol : String
  current_price : ℚ
deriving DecidableEq

/-- The JSON keys of a `daily_prediction` object, in assignment order
(script.js lines 590-595). -/
def DailyPrediction.keys : List String :=
  ["predicted_price", "days_ahead", "confidence", "model_accuracy"]

/-- The JSON keys of an `hourly_prediction` object, in assignment order
(script.js lines 603-608). -/
def HourlyPrediction.keys : List String :=
  ["predicted_price", "hours_ahead", "confidence", "model_accuracy"]

/-- The top-level keys present on a `predictions` object: the sub-prediction
keys exactly when the corresponding branch ran, plus `symbol` and
`current_price` which are always assigned (script.js lines 583-612). -/
def Predictions.topKeys (p : Predictions) : List String :=
  (if p.daily_prediction.isSome then ["daily_prediction"] else []) ++
    (if p.hourly_prediction.isSome then ["hourly_prediction"] else []) ++
    ["symbol", "current_price"]

/-- JavaScript `Math.max` on two (non-NaN) numbers. -/
def jsMax (a b : ℚ) : ℚ := if a ≤ b then b else a

/-- JavaScript `price || fallback` for a nullable number `price`: both
`null` and `0` are falsy, so the fallback is used for them
(script.js line 580). -/
def jsOrElse (price : Option ℚ) (fallback : ℚ) : ℚ :=
  match price with
  | some p => if p = 0 then fallback else p
  | none => fallback

/-- `simulateAdvancedPrediction(crypto, days, hours, price)`
(script.js lines 573-618), with the eight `Math.random()` results passed
explicitly.  The `await`ed 800 ms delay and the DOM update are side effects
outside the data path and are not modelled.  A JS `throw` is `Except.error`. -/
def simulateAdvancedPrediction (crypto : String) (days hours : ℤ) (price : Option ℚ)
    (d : Draws) : Except String Predictions :=
  match cryptoData crypto with
  | none => Except.error "Cryptocurrency not found"
  | some data =>
    let basePrice := jsOrElse price data.currentPrice
    let daily : Option DailyPrediction :=
      if 0 < days then
        some { predicted_price := jsMax 0 (dailyPredictedPrice basePrice d)
               days_ahead := days
               confidence := dailyConfidence d
               model_accuracy := data.dailyModel.accuracy }
      else none
    let hourly : Option HourlyPrediction :=
      if 0 < hours then
        some { predicted_price := jsMax 0 (hourlyPredictedPrice basePrice d)
               hours_ahead := hours
               confidence := hourlyConfidence d
               model_accuracy := data.hourlyModel.accuracy }
      else none
    Except.ok { daily_prediction := daily, hourly_prediction := hourly
                symbol := crypto, current_price := basePrice }

/-- Outcome of one click of the predict button: a validation rejection
(`showNotification(message, kind)` followed by `return`), a successful
prediction, or a failure notification from the `catch` branch. -/
inductive GenOutcome where
  | rejected (message kind : String) : GenOutcome
  | succeeded (p : Predictions) : GenOutcome
  | failed (message : String) : GenOutcome
deriving DecidableEq

/-- `GenOutcome` discriminator: `true` exactly on validation rejections. -/
def GenOutcome.isRejected : GenOutcome → Bool
  | .rejected _ _ => true
  | _ => false

/-- The guard `if (currentPrice && currentPrice <= 0)`
(script.js line 498, duplicated in the page script): a `null` or `0`
current price is falsy, so the guard fires only for truthy values that are
`<= 0`, i.e. strictly negative parsed prices. -/
def invalidPrice (currentPrice : Option ℚ) : Bool :=
  match currentPrice with
  | some p => decide (p ≠ 0) && decide (p ≤ 0)
  | none => false

/-- The body of `generatePrediction` (script.js lines 476-525) after input
parsing, abstracted over the prediction step `predict` (in `script.js` the
awaited `simulateAdvancedPrediction` call; in the duplicate page script the
`fetch` POST): the validation short-circuits happen before `predict` is
consulted. -/
def generatePredictionWith
    (predict : String → ℤ → ℤ → Option ℚ → Except String Predictions)
    (selectedCrypto : String) (daysAhead hoursAhead : ℤ)
    (currentPrice : Option ℚ) : GenOutcome :=
  if daysAhead = 0 ∧ hoursAhead = 0 then
    GenOutcome.rejected "Please select at least one prediction timeframe" "warning"
  else if invalidPrice currentPrice then
    GenOutcome.rejected "Please enter a valid current price" "error"
  else
    match predict selectedCrypto daysAhead hoursAhead currentPrice with
    | Except.ok p => GenOutcome.succeeded p
    | Except.error e => GenOutcome.failed ("Prediction failed: " ++ e)

/-- `generatePrediction` of `script.js` (lines 476-525): validation, then the
`simulateAdvancedPrediction` call with the given random draws. -/
def generatePrediction (selectedCrypto : String) (daysAhead hoursAhead : ℤ)
    (currentPrice : Option ℚ) (d : Draws) : GenOutcome :=
  generatePredictionWith
    (fun s dd hh p => simulateAdvancedPrediction s dd hh p d)
    selectedCrypto daysAhead hoursAhead currentPrice

theorem simulate_ok (crypto : String) (data : CryptoInfo) (days hours : ℤ)
    (price : Option ℚ) (d : Draws) (hdata : cryptoData crypto = some data) :
    simulateAdvancedPrediction crypto days hours price d = Except.ok
      { daily_prediction :=
          if 0 < days then
            some { predicted_price := jsMax 0 (dailyPredictedPrice (jsOrElse price data.currentPrice) d)
                   days_ahead := days
                   confidence := dailyConfidence d
                   model_accuracy := data.dailyModel.accuracy }
          else none
        hourly_prediction :=
          if 0 < hours then
            some { predicted_price := jsMax 0 (hourlyPredictedPrice (jsOrElse price data.currentPrice) d)
                   hours_ahead := hours
                   confidence := hourlyConfidence d
                   model_accuracy := data.hourlyModel.accuracy }
          else none
        symbol := crypto
        current_price := jsOrElse price data.currentPrice } := by
  unfold simulateAdvancedPrediction
  rw [hdata]

theorem cryptoData_eq_none (sym : String)
    (hsym : sym ∉ ["BTC", "ETH", "ADA", "BNB", "DOGE", "SOL", "MATIC"]) :
    cryptoData sym = none := by
  unfold cryptoData
  split <;> simp_all

theorem dailyTrend_mem (d : Draws) (h : unitDraw d.dTrend) :
    -(1/10) ≤ dailyTrend d ∧ dailyTrend d ≤ 1/10 := by
  obtain ⟨h0, h1⟩ := h
  unfold dailyTrend
  constructor <;> nlinarith

theorem dailyVolatility_mem (d : Draws) (h : unitDraw d.dVol) :
    1/20 ≤ dailyVolatility d ∧ dailyVolatility d ≤ 3/20 := by
  obtain ⟨h0, h1⟩ := h
  unfold dailyVolatility
  constructor <;> nlinarith

theorem dailyFactor_pos (d : Draws) (hv : unitDraw d.dVol) (ht : unitDraw d.dTrend)
    (hn : unitDraw d.dNoise) : 0 < 1 + dailyTrend d + dailyNoise d := by
  obtain ⟨hv0, hv1⟩ := hv
  obtain ⟨ht0, ht1⟩ := ht
  obtain ⟨hn0, hn1⟩ := hn
  unfold dailyNoise dailyTrend dailyVolatility
  nlinarith [mul_nonneg hn0 hv0]

theorem hourlyFactor_pos (d : Draws) (hv : unitDraw d.hVol) (ht : unitDraw d.hTrend)
    (hn : unitDraw d.hNoise) : 0 < 1 + hourlyTrend d + hourlyNoise d := by
  obtain ⟨hv0, hv1⟩ := hv
  obtain ⟨ht0, ht1⟩ := ht
  obtain ⟨hn0, hn1⟩ := hn
  unfold hourlyNoise hourlyTrend hourlyVolatility
  nlinarith [mul_nonneg hn0 hv0]

theorem jsMax_zero_nonneg (x : ℚ) : 0 ≤ jsMax 0 x := by
  unfold jsMax
  split
  · assumption
  · exact le_refl 0

theorem jsMax_zero_pos (x : ℚ) (hx : 0 < x) : 0 < jsMax 0 x := by
  unfold jsMax
  rw [if_pos hx.le]
  exact hx


theorem dailyConfidence_mem (d : Draws) (h : unitDraw d.dConf) :
    7/10 ≤ dailyConfidence d ∧ dailyConfidence d < 1 := by
  obtain ⟨h0, h1⟩ := h
  unfold dailyConfidence
  constructor <;> nlinarith

theorem hourlyConfidence_mem (d : Draws) (h : unitDraw d.hConf) :
    4/5 ≤ hourlyConfidence d ∧ hourlyConfidence d < 1 := by
  obtain ⟨h0, h1⟩ := h
  unfold hourlyConfidence
  constructor <;> nlinarith

theorem hourlyTrend_mem (d : Draws) (h : unitDraw d.hTrend) :
    -(1/20) ≤ hourlyTrend d ∧ hourlyTrend d ≤ 1/20 := by
  obtain ⟨h0, h1⟩ := h
  unfold hourlyTrend
  constructor <;> nlinarith

theorem hourlyVolatility_mem (d : Draws) (h : unitDraw d.hVol) :
    1/100 ≤ hourlyVolatility d ∧ hourlyVolatility d ≤ 3/50 := by
  obtain ⟨h0, h1⟩ := h
  unfold hourlyVolatility
  constructor <;> nlinarith

/-- `GenOutcome` discriminator: `true` exactly on successful predictions. -/
def GenOutcome.isSucceeded : GenOutcome → Bool
  | .succeeded _ => true
  | _ => false

theorem rejected_of_neg_price (sym : String) (days hours : ℤ) (p : ℚ) (d : Draws)
    (hneg : p < 0) :
    (generatePrediction sym days hours (some p) d).isRejected = true := by
  unfold generatePrediction generatePredictionWith
  have hip : invalidPrice (some p) = true := by
    unfold invalidPrice
    simp [hneg.le, hneg.ne]
  by_cases h : days = 0 ∧ hours = 0
  · rw [if_pos h]
    rfl
  · rw [if_neg h, if_pos hip]
    rfl

/-- The concrete `predictions` object of the run
`simulateAdvancedPrediction("BTC", 1, 0, 50000)` under all-zero draws:
base price `50000`, daily factor `1 - 0.1 - 0.025 = 0.875`. -/
def pBtcRun : Predictions :=
  { daily_prediction :=
      some { predicted_price := 43750, days_ahead := 1, confidence := 0.7, model_accuracy := 75.6 }
    hourly_prediction := none
    symbol := "BTC"
    current_price := 50000 }


/-- Claim C1: for every prediction request in which the parsed days-ahead
value is 0 and the parsed hours-ahead value is 0, `generatePrediction`
rejects the request with the validation message "Please select at least one
prediction timeframe" and returns without producing any prediction,
regardless of the selected symbol and of any current-price value. -/
theorem C1_zero_horizons_always_rejected (sym : String) (price : Option ℚ) (d : Draws) :
    generatePrediction sym 0 0 price d =
      GenOutcome.rejected "Please select at least one prediction timeframe" "warning" := rfl

/-- Claim C6: a prediction request with a current-price override of `-5` is
always rejected by `generatePrediction`, for every symbol and every
combination of days-ahead and hours-ahead values. -/
theorem C6_minus_five_always_rejected (sym : String) (days hours : ℤ) (d : Draws) :
    (generatePrediction sym days hours (some (-5)) d).isRejected = true :=
  rejected_of_neg_price sym days hours (-5) d (by norm_num)

/-- Claim C8: for every request in which both horizons parse to 0,
`generatePrediction` returns at the validation step; since the result does
not depend on the `predict` argument (`simulateAdvancedPrediction` in
`script.js`, the `fetch` POST in the duplicate page script), the
prediction/network step is never invoked. -/
theorem C8_zero_horizons_no_predict_call
    (predict : String → ℤ → ℤ → Option ℚ → Except String Predictions)
    (sym : String) (price : Option ℚ) :
    generatePredictionWith predict sym 0 0 price =
      GenOutcome.rejected "Please select at least one prediction timeframe" "warning" := rfl

/-- Claim C9: for every symbol that is not one of the seven keys of
`cryptoData` (BTC, ETH, ADA, BNB, DOGE, SOL, MATIC) — in particular XRP and
LTC — `simulateAdvancedPrediction` throws "Cryptocurrency not found" instead
of returning a prediction, for every horizon and price. -/
theorem C9_unknown_symbol_throws (sym : String)
    (hsym : sym ∉ ["BTC", "ETH", "ADA", "BNB", "DOGE", "SOL", "MATIC"])
    (days hours : ℤ) (price : Option ℚ) (d : Draws) :
    simulateAdvancedPrediction sym days hours price d =
      Except.error "Cryptocurrency not found" := by
  unfold simulateAdvancedPrediction
  rw [cryptoData_eq_none sym hsym]

/-- Witness for C9 at the concrete symbol "XRP". -/
theorem C9_unknown_symbol_throws_witness :
    simulateAdvancedPrediction "XRP" 3 0 none drawsZero =
      Except.error "Cryptocurrency not found" :=
  C9_unknown_symbol_throws "XRP" (by decide) 3 0 none drawsZero


/-- Claim C2: for every symbol present in `cryptoData`, every base price and
every sequence of pseudo-random draws in `[0,1)`, when `days > 0` the
fallback estimator computes the daily predicted price as
`max(0, basePrice * (1 + trend + noise))` with the trend in `[-10%, +10%]`
and the volatility in `[5%, 15%]`, and when additionally `hours > 0` the
hourly predicted price likewise with trend in `[-5%, +5%]` and volatility in
`[1%, 6%]`. -/
theorem C2_fallback_formula (crypto : String) (data : CryptoInfo) (days hours : ℤ)
    (price : Option ℚ) (d : Draws) (hdata : cryptoData crypto = some data)
    (hd : d.valid) (hdays : 0 < days) :
    ∃ p, simulateAdvancedPrediction crypto days hours price d = Except.ok p ∧
      (∃ sub, p.daily_prediction = some sub ∧
        sub.predicted_price =
          jsMax 0 (jsOrElse price data.currentPrice * (1 + dailyTrend d + dailyNoise d)) ∧
        -(1/10) ≤ dailyTrend d ∧ dailyTrend d ≤ 1/10 ∧
        1/20 ≤ dailyVolatility d ∧ dailyVolatility d ≤ 3/20) ∧
      (0 < hours → ∃ sub, p.hourly_prediction = some sub ∧
        sub.predicted_price =
          jsMax 0 (jsOrElse price data.currentPrice * (1 + hourlyTrend d + hourlyNoise d)) ∧
        -(1/20) ≤ hourlyTrend d ∧ hourlyTrend d ≤ 1/20 ∧
        1/100 ≤ hourlyVolatility d ∧ hourlyVolatility d ≤ 3/50) := by
  obtain ⟨hv, ht, hn, hc, hhv, hht, hhn, hhc⟩ := hd
  refine ⟨_, simulate_ok crypto data days hours price d hdata, ?_, ?_⟩
  · refine ⟨{ predicted_price := jsMax 0 (dailyPredictedPrice (jsOrElse price data.currentPrice) d)
              days_ahead := days
              confidence := dailyConfidence d
              model_accuracy := data.dailyModel.accuracy }, ?_, rfl,
      (dailyTrend_mem d ht).1, (dailyTrend_mem d ht).2,
      (dailyVolatility_mem d hv).1, (dailyVolatility_mem d hv).2⟩
    rw [if_pos hdays]
  · intro hhours
    refine ⟨{ predicted_price := jsMax 0 (hourlyPredictedPrice (jsOrElse price data.currentPrice) d)
              hours_ahead := hours
              confidence := hourlyConfidence d
              model_accuracy := data.hourlyModel.accuracy }, ?_, rfl,
      (hourlyTrend_mem d hht).1, (hourlyTrend_mem d hht).2,
      (hourlyVolatility_mem d hhv).1, (hourlyVolatility_mem d hhv).2⟩
    rw [if_pos hhours]

/-- Witness for C2 at the concrete request (BTC, 1 day, 1 hour, 50000) under
all-zero draws. -/
theorem C2_fallback_formula_witness :
    ∃ p, simulateAdvancedPrediction "BTC" 1 1 (some 50000) drawsZero = Except.ok p ∧
      (∃ sub, p.daily_prediction = some sub ∧
        sub.predicted_price =
          jsMax 0 (jsOrElse (some 50000) btcInfo.currentPrice *
            (1 + dailyTrend drawsZero + dailyNoise drawsZero)) ∧
        -(1/10) ≤ dailyTrend drawsZero ∧ dailyTrend drawsZero ≤ 1/10 ∧
        1/20 ≤ dailyVolatility drawsZero ∧ dailyVolatility drawsZero ≤ 3/20) ∧
      ((0:ℤ) < 1 → ∃ sub, p.hourly_prediction = some sub ∧
        sub.predicted_price =
          jsMax 0 (jsOrElse (some 50000) btcInfo.currentPrice *
            (1 + hourlyTrend drawsZero + hourlyNoise drawsZero)) ∧
        -(1/20) ≤ hourlyTrend drawsZero ∧ hourlyTrend drawsZero ≤ 1/20 ∧
        1/100 ≤ hourlyVolatility drawsZero ∧ hourlyVolatility drawsZero ≤ 3/50) :=
  C2_fallback_formula "BTC" btcInfo 1 1 (some 50000) drawsZero rfl (by decide) (by decide)

/-- Claim C4: for the request (BTC, days_ahead 1, hours_ahead 0,
current_price 50000) and every sequence of pseudo-random draws in `[0,1)`,
the result contains a `daily_prediction` whose `predicted_price` is strictly
positive and whose `days_ahead` equals 1, and contains no
`hourly_prediction`. -/
theorem C4_btc_daily_example (d : Draws) (hd : d.valid) :
    ∃ p, simulateAdvancedPrediction "BTC" 1 0 (some 50000) d = Except.ok p ∧
      ∃ sub, p.daily_prediction = some sub ∧
        0 < sub.predicted_price ∧ sub.days_ahead = 1 ∧ p.hourly_prediction = none := by
  obtain ⟨hv, ht, hn, hc, hhv, hht, hhn, hhc⟩ := hd
  refine ⟨_, simulate_ok "BTC" btcInfo 1 0 (some 50000) d rfl, ?_⟩
  refine ⟨{ predicted_price := jsMax 0 (dailyPredictedPrice (jsOrElse (some 50000) btcInfo.currentPrice) d)
            days_ahead := 1
            confidence := dailyConfidence d
            model_accuracy := btcInfo.dailyModel.accuracy }, ?_, ?_, rfl, ?_⟩
  · rw [if_pos (by norm_num : (0:ℤ) < 1)]
  · apply jsMax_zero_pos
    have hbase : jsOrElse (some 50000) btcInfo.currentPrice = 50000 := by norm_num [jsOrElse]
    unfold dailyPredictedPrice
    rw [hbase]
    exact mul_pos (by norm_num) (dailyFactor_pos d hv ht hn)
  · rw [if_neg (by norm_num : ¬(0:ℤ) < 0)]

/-- Witness for C4 at the all-zero draw vector. -/
theorem C4_btc_daily_example_witness :
    ∃ p, simulateAdvancedPrediction "BTC" 1 0 (some 50000) drawsZero = Except.ok p ∧
      ∃ sub, p.daily_prediction = some sub ∧
        0 < sub.predicted_price ∧ sub.days_ahead = 1 ∧ p.hourly_prediction = none :=
  C4_btc_daily_example drawsZero (by decide)

/-- Claim C5: every sub-prediction produced by `simulateAdvancedPrediction`
(for any symbol of `cryptoData`, any horizons, any price override and any
draws in `[0,1)`) has a non-negative predicted price, carries the requested
horizon value, has a confidence score in `[0,1]` (daily drawn from
`[0.7,1)`, hourly from `[0.8,1)`), and has `model_accuracy` copied unchanged
from the static `cryptoData` table. -/
theorem C5_subprediction_invariants (crypto : String) (data : CryptoInfo) (days hours : ℤ)
    (price : Option ℚ) (d : Draws) (hdata : cryptoData crypto = some data) (hd : d.valid) :
    ∃ p, simulateAdvancedPrediction crypto days hours price d = Except.ok p ∧
      (∀ sub, p.daily_prediction = some sub →
        0 ≤ sub.predicted_price ∧ sub.days_ahead = days ∧
        0 ≤ sub.confidence ∧ sub.confidence ≤ 1 ∧
        7/10 ≤ sub.confidence ∧ sub.confidence < 1 ∧
        sub.model_accuracy = data.dailyModel.accuracy) ∧
      (∀ sub, p.hourly_prediction = some sub →
        0 ≤ sub.predicted_price ∧ sub.hours_ahead = hours ∧
        0 ≤ sub.confidence ∧ sub.confidence ≤ 1 ∧
        4/5 ≤ sub.confidence ∧ sub.confidence < 1 ∧
        sub.model_accuracy = data.hourlyModel.accuracy) := by
  obtain ⟨hv, ht, hn, hc, hhv, hht, hhn, hhc⟩ := hd
  have hdc := dailyConfidence_mem d hc
  have hhcm := hourlyConfidence_mem d hhc
  refine ⟨_, simulate_ok crypto data days hours price d hdata, ?_, ?_⟩
  · intro sub hsub
    by_cases hdy : 0 < days
    · rw [if_pos hdy] at hsub
      simp only [Option.some.injEq] at hsub
      subst hsub
      exact ⟨jsMax_zero_nonneg _, rfl, by linarith [hdc.1], le_of_lt hdc.2, hdc.1, hdc.2, rfl⟩
    · rw [if_neg hdy] at hsub
      exact absurd hsub (by simp)
  · intro sub hsub
    by_cases hhr : 0 < hours
    · rw [if_pos hhr] at hsub
      simp only [Option.some.injEq] at hsub
      subst hsub
      exact ⟨jsMax_zero_nonneg _, rfl, by linarith [hhcm.1], le_of_lt hhcm.2, hhcm.1, hhcm.2, rfl⟩
    · rw [if_neg hhr] at hsub
      exact absurd hsub (by simp)

/-- Witness for C5 at the concrete request (BTC, 2 days, 3 hours, no
override) under all-zero draws. -/
theorem C5_subprediction_invariants_witness :
    ∃ p, simulateAdvancedPrediction "BTC" 2 3 none drawsZero = Except.ok p ∧
      (∀ sub, p.daily_prediction = some sub →
        0 ≤ sub.predicted_price ∧ sub.days_ahead = 2 ∧
        0 ≤ sub.confidence ∧ sub.confidence ≤ 1 ∧
        7/10 ≤ sub.confidence ∧ sub.confidence < 1 ∧
        sub.model_accuracy = btcInfo.dailyModel.accuracy) ∧
      (∀ sub, p.hourly_prediction = some sub →
        0 ≤ sub.predicted_price ∧ sub.hours_ahead = 3 ∧
        0 ≤ sub.confidence ∧ sub.confidence ≤ 1 ∧
        4/5 ≤ sub.confidence ∧ sub.confidence < 1 ∧
        sub.model_accuracy = btcInfo.hourlyModel.accuracy) :=
  C5_subprediction_invariants "BTC" btcInfo 2 3 none drawsZero rfl (by decide)


/-- Counterexample to claim C3 as stated: the request (BTC, 1 day, 0 hours)
with a current-price override of exactly 0 is not rejected —
`generatePrediction` proceeds and produces a prediction, because `0` is
falsy in the JS guard `currentPrice && currentPrice <= 0`. -/
theorem C3_counterexample :
    (generatePrediction "BTC" 1 0 (some 0) drawsZero).isRejected = false ∧
    (generatePrediction "BTC" 1 0 (some 0) drawsZero).isSucceeded = true := by
  constructor <;> decide

/-- Claim C3 as amended: a strictly negative current-price override is always
rejected with a validation error before any prediction step, but an override
of exactly 0 is falsy in the guard `currentPrice && currentPrice <= 0` and
therefore passes the price check. -/
theorem C3_negative_price_rejected :
    (∀ (sym : String) (days hours : ℤ) (p : ℚ) (d : Draws), p < 0 →
      (generatePrediction sym days hours (some p) d).isRejected = true) ∧
    invalidPrice (some 0) = false :=
  ⟨fun sym days hours p d hneg => rejected_of_neg_price sym days hours p d hneg, by decide⟩

/-- Witness for the amended C3 at the concrete request (ETH, 2 days, 5 hours,
override -7). -/
theorem C3_negative_price_rejected_witness :
    (generatePrediction "ETH" 2 5 (some (-7)) drawsZero).isRejected = true :=
  C3_negative_price_rejected.1 "ETH" 2 5 (-7) drawsZero (by norm_num)

/-- Counterexample to claim C7 as stated: the successful response of the run
(BTC, 1 day, 0 hours, 50000) under all-zero draws carries no `timestamp`
top-level field, and its sub-prediction objects carry neither a `currency`
nor a `model_type` field. -/
theorem C7_counterexample :
    simulateAdvancedPrediction "BTC" 1 0 (some 50000) drawsZero = Except.ok pBtcRun ∧
    pBtcRun.topKeys.contains "timestamp" = false ∧
    DailyPrediction.keys.contains "currency" = false ∧
    DailyPrediction.keys.contains "model_type" = false ∧
    HourlyPrediction.keys.contains "currency" = false ∧
    HourlyPrediction.keys.contains "model_type" = false := by
  refine ⟨?_, by decide, by decide, by decide, by decide, by decide⟩
  rw [simulate_ok "BTC" btcInfo 1 0 (some 50000) drawsZero rfl]
  norm_num [pBtcRun, jsMax, jsOrElse, dailyPredictedPrice, dailyTrend, dailyNoise,
    dailyVolatility, dailyConfidence, drawsZero, btcInfo]

/-- Claim C7 as amended: every successful response object of
`simulateAdvancedPrediction` contains the fields `symbol` and
`current_price` (but no `timestamp`), each present sub-prediction is listed
among the top-level keys, and each sub-prediction object consists of exactly
the fields `predicted_price`, the horizon field, `confidence` and
`model_accuracy` (so neither `currency` nor `model_type`). -/
theorem C7_response_fields (crypto : String) (days hours : ℤ) (price : Option ℚ)
    (d : Draws) (p : Predictions)
    (_hok : simulateAdvancedPrediction crypto days hours price d = Except.ok p) :
    "symbol" ∈ p.topKeys ∧ "current_price" ∈ p.topKeys ∧ "timestamp" ∉ p.topKeys ∧
    (p.daily_prediction.isSome = true → "daily_prediction" ∈ p.topKeys) ∧
    (p.hourly_prediction.isSome = true → "hourly_prediction" ∈ p.topKeys) ∧
    DailyPrediction.keys = ["predicted_price", "days_ahead", "confidence", "model_accuracy"] ∧
    HourlyPrediction.keys = ["predicted_price", "hours_ahead", "confidence", "model_accuracy"] := by
  unfold Predictions.topKeys
  cases hdp : p.daily_prediction.isSome <;> cases hhp : p.hourly_prediction.isSome <;>
    simp [hdp, hhp, DailyPrediction.keys, HourlyPrediction.keys]

/-- Witness for the amended C7 at the concrete run (BTC, 1 day, 0 hours,
50000) under all-zero draws. -/
theorem C7_response_fields_witness :
    "symbol" ∈ pBtcRun.topKeys ∧ "current_price" ∈ pBtcRun.topKeys ∧
    "timestamp" ∉ pBtcRun.topKeys ∧
    (pBtcRun.daily_prediction.isSome = true → "daily_prediction" ∈ pBtcRun.topKeys) ∧
    (pBtcRun.hourly_prediction.isSome = true → "hourly_prediction" ∈ pBtcRun.topKeys) ∧
    DailyPrediction.keys = ["predicted_price", "days_ahead", "confidence", "model_accuracy"] ∧
    HourlyPrediction.keys = ["predicted_price", "hours_ahead", "confidence", "model_accuracy"] :=
  C7_response_fields "BTC" 1 0 (some 50000) drawsZero pBtcRun
    (by rw [simulate_ok "BTC" btcInfo 1 0 (some 50000) drawsZero rfl]
        norm_num [pBtcRun, jsMax, jsOrElse, dailyPredictedPrice, dailyTrend, dailyNoise,
          dailyVolatility, dailyConfidence, drawsZero, btcInfo])

/-- Claim C10: a request whose current-price field parses to exactly 0 is not
rejected by the price check (the JS guard fires only for truthy values), and
when at least one horizon is positive the request succeeds with
`simulateAdvancedPrediction` silently using the catalog price from
`cryptoData` as the basis price, because `price || data.currentPrice` treats
0 as absent. -/
theorem C10_zero_price_uses_catalog (sym : String) (data : CryptoInfo) (days hours : ℤ)
    (d : Draws) (hdata : cryptoData sym = some data) (hnz : ¬(days = 0 ∧ hours = 0)) :
    invalidPrice (some 0) = false ∧
    jsOrElse (some 0) data.currentPrice = data.currentPrice ∧
    ∃ p, generatePrediction sym days hours (some 0) d = GenOutcome.succeeded p ∧
      p.current_price = data.currentPrice := by
  refine ⟨by decide, by norm_num [jsOrElse], ?_⟩
  unfold generatePrediction generatePredictionWith
  rw [if_neg hnz]
  have hip : invalidPrice (some 0) = false := by decide
  rw [hip]
  simp only [Bool.false_eq_true, if_false]
  rw [simulate_ok sym data days hours (some 0) d hdata]
  exact ⟨_, rfl, by norm_num [jsOrElse]⟩

/-- Witness for C10 at the concrete request (DOGE, 0 days, 4 hours,
override 0) under all-zero draws. -/
theorem C10_zero_price_uses_catalog_witness :
    invalidPrice (some 0) = false ∧
    jsOrElse (some 0) dogeInfo.currentPrice = dogeInfo.currentPrice ∧
    ∃ p, generatePrediction "DOGE" 0 4 (some 0) drawsZero = GenOutcome.succeeded p ∧
      p.current_price = dogeInfo.currentPrice :=
  C10_zero_price_uses_catalog "DOGE" dogeInfo 0 4 drawsZero rfl (by decide)

end CryptoPredictor
